import Mathlib

/-!
Verification development for the FastAPI + Ollama gateway (`app/main.py`).

The gateway forwards chat requests to an upstream inference server and
relays the upstream's newline-delimited JSON stream back to callers,
either aggregated (`/chat`) or incrementally (`/stream`).

Shallow embedding conventions:
* Python floats (`temperature`, `top_p`) are modelled as `Rat`: the code
  never computes with them, it only carries them through (`float(x)` on a
  float and `int(x)` on an int are identities), tests them for truthiness
  (`x or default`, falsy exactly at 0), and echoes them back.
* One decoded upstream line is modelled by `Line`.  Per the upstream wire
  contract (spec section 6) a parseable line is a JSON object optionally
  carrying a string-valued "response" field, so `Line.obj` carries that
  optional field; `Line.empty` is a falsy (empty) line skipped by
  `if not line: continue`, and `Line.nonJson` is a non-empty line on
  which `json.loads` raises `JSONDecodeError`.
* The upstream generate call is modelled as a function from the posted
  payload to an `UpstreamResult`: either the full list of streamed lines
  followed by a normal close (`success`), or a `requests.Timeout`
  (`timeout`) or other `requests.RequestException` (`reqError`, which
  also covers `raise_for_status` on a non-2xx reply) raised after some
  prefix of lines was already consumed.  A failure before any data is the
  same constructor with an empty consumed prefix.
* FastAPI query-parameter binding for the GET handlers is modelled with
  `Option` arguments: `none` is an absent query parameter (the signature
  default applies), `some v` is an explicitly supplied value.
* `raise HTTPException(status, detail)` is modelled by the
  `ChatResult.httpError status detail` constructor.
-/

namespace OllamaGateway

/-- One decoded line of the upstream generate stream. -/
inductive Line where
  | empty : Line
  | nonJson : String → Line
  | obj : Option String → Line
deriving DecidableEq

/-- Outcome of one upstream generate call: the lines the iteration over
`r.iter_lines()` produced, and how the iteration ended. -/
inductive UpstreamResult where
  | success : List Line → UpstreamResult
  | timeout : List Line → UpstreamResult
  | reqError : List Line → String → UpstreamResult
deriving DecidableEq

/-- The `options` map built by `_make_payload` (`num_predict = max_tokens`). -/
structure GenOptions where
  temperature : Rat
  top_p : Rat
  num_predict : Int
deriving DecidableEq

/-- The JSON body `_make_payload` posts to `/api/generate`. -/
structure Payload where
  model : String
  prompt : String
  options : GenOptions
deriving DecidableEq

/-- Translation of `_make_payload`: `float()` / `int()` on already-typed
values are identities, so the payload just repackages the arguments. -/
def make_payload (prompt model : String) (temperature top_p : Rat)
    (max_tokens : Int) : Payload :=
  { model := model
    prompt := prompt
    options :=
      { temperature := temperature
        top_p := top_p
        num_predict := max_tokens } }

/-- The JSON object `_chat_full` returns on success. -/
structure AggregatedResult where
  model : String
  prompt : String
  temperature : Rat
  top_p : Rat
  max_tokens : Int
  response : String
deriving DecidableEq

/-- Result of the `/chat` handlers: a JSON body, or a raised
`HTTPException` with a status code and detail string. -/
inductive ChatResult where
  | ok : AggregatedResult → ChatResult
  | httpError : Nat → String → ChatResult
deriving DecidableEq

/-- Whether a `ChatResult` is a success body (no `HTTPException` raised). -/
def ChatResult.isOk : ChatResult → Bool
  | .ok _ => true
  | .httpError _ _ => false

/-- The per-line loop body of `_chat_full`: skip falsy lines, skip lines
that fail `json.loads`, and append `obj["response"]` to `chunks` exactly
when the parsed object has a `"response"` key. -/
def collectChunks (lines : List Line) : List String :=
  lines.foldl
    (fun chunks l =>
      match l with
      | Line.empty => chunks
      | Line.nonJson _ => chunks
      | Line.obj none => chunks
      | Line.obj (some s) => chunks ++ [s])
    []

/-- Translation of `_chat_full`: post the payload, on a clean close return
the aggregated body with `"".join(chunks)`, on `requests.Timeout` raise
504, on any other `requests.RequestException` raise 502.  The locally
accumulated `chunks` are discarded on either exception. -/
def chat_full (prompt model : String) (temperature top_p : Rat)
    (max_tokens : Int) (upstream : Payload → UpstreamResult) : ChatResult :=
  match upstream (make_payload prompt model temperature top_p max_tokens) with
  | UpstreamResult.success lines =>
      ChatResult.ok
        { model := model
          prompt := prompt
          temperature := temperature
          top_p := top_p
          max_tokens := max_tokens
          response := String.join (collectChunks lines) }
  | UpstreamResult.timeout _ =>
      ChatResult.httpError 504 "Timeout talking to Ollama"
  | UpstreamResult.reqError _ msg =>
      ChatResult.httpError 502 ("Ollama error: " ++ msg)

/-- The fragments the `_chat_stream` generator yields while iterating a
list of lines: the same skip policy as `_chat_full`, but each fragment is
yielded immediately instead of accumulated. -/
def emitFragments : List Line → List String
  | [] => []
  | Line.empty :: rest => emitFragments rest
  | Line.nonJson _ :: rest => emitFragments rest
  | Line.obj none :: rest => emitFragments rest
  | Line.obj (some s) :: rest => s :: emitFragments rest

/-- Translation of `_chat_stream`: the complete ordered list of fragments
the generator yields.  An exception interrupts the loop after the
consumed prefix's fragments were already yielded, and the `except` arms
yield exactly one trailing in-band error fragment. -/
def chat_stream (prompt model : String) (temperature top_p : Rat)
    (max_tokens : Int) (upstream : Payload → UpstreamResult) : List String :=
  match upstream (make_payload prompt model temperature top_p max_tokens) with
  | UpstreamResult.success lines => emitFragments lines
  | UpstreamResult.timeout consumed =>
      emitFragments consumed ++ ["[Timeout talking to Ollama]"]
  | UpstreamResult.reqError consumed msg =>
      emitFragments consumed ++ ["[Ollama error: " ++ msg ++ "]"]

/-- A `StreamingResponse`: FastAPI's default status 200, the declared
media type, and the ordered fragments of the body. -/
structure StreamResponse where
  status : Nat
  media_type : String
  body : List String
deriving DecidableEq

/-- Translation of the GET `/chat` handler: absent query parameters take
the signature defaults, supplied values are passed through unchanged. -/
def chat_get (prompt : String) (model : Option String)
    (temperature top_p : Option Rat) (max_tokens : Option Int)
    (upstream : Payload → UpstreamResult) : ChatResult :=
  chat_full prompt (model.getD "phi3:mini")
    (temperature.getD (7 / 10)) (top_p.getD (9 / 10))
    (max_tokens.getD 512) upstream

/-- Translation of the GET `/stream` handler: same parameter binding as
GET `/chat`, wrapping the generator in a 200 `text/plain`
`StreamingResponse`. -/
def stream_get (prompt : String) (model : Option String)
    (temperature top_p : Option Rat) (max_tokens : Option Int)
    (upstream : Payload → UpstreamResult) : StreamResponse :=
  { status := 200
    media_type := "text/plain"
    body :=
      chat_stream prompt (model.getD "phi3:mini")
        (temperature.getD (7 / 10)) (top_p.getD (9 / 10))
        (max_tokens.getD 512) upstream }

/-- The validated `ChatIn` pydantic model: `prompt` required, the other
fields `Optional` (`none` models Python `None`). -/
structure ChatIn where
  prompt : String
  model : Option String
  temperature : Option Rat
  top_p : Option Rat
  max_tokens : Option Int
deriving DecidableEq

/-- A raw POST `/chat` JSON body before pydantic validation: the outer
`Option` is presence of the key in the JSON object, the inner `Option`
is JSON `null` versus a value. -/
structure ChatPostBody where
  prompt : String
  model : Option (Option String)
  temperature : Option (Option Rat)
  top_p : Option (Option Rat)
  max_tokens : Option (Option Int)
deriving DecidableEq

/-- Pydantic validation of a raw body against `ChatIn`: an absent key
takes the field's declared default, a present key (including an explicit
`null`) keeps its value. -/
def ChatIn.parse (b : ChatPostBody) : ChatIn :=
  { prompt := b.prompt
    model := b.model.getD (some "phi3:mini")
    temperature := b.temperature.getD (some (7 / 10))
    top_p := b.top_p.getD (some (9 / 10))
    max_tokens := b.max_tokens.getD (some 512) }

/-- Python `x or d` for an optional string: falsy at `None` and `""`. -/
def orElseStr (v : Option String) (d : String) : String :=
  match v with
  | none => d
  | some s => if s = "" then d else s

/-- Python `x or d` for an optional float: falsy at `None` and `0.0`. -/
def orElseRat (v : Option Rat) (d : Rat) : Rat :=
  match v with
  | none => d
  | some x => if x = 0 then d else x

/-- Python `x or d` for an optional int: falsy at `None` and `0`. -/
def orElseInt (v : Option Int) (d : Int) : Int :=
  match v with
  | none => d
  | some x => if x = 0 then d else x

/-- Translation of the POST `/chat` handler: each optional field is passed
through `or <default>` before calling `_chat_full`. -/
def chat_post (body : ChatIn) (upstream : Payload → UpstreamResult) :
    ChatResult :=
  chat_full body.prompt
    (orElseStr body.model "phi3:mini")
    (orElseRat body.temperature (7 / 10))
    (orElseRat body.top_p (9 / 10))
    (orElseInt body.max_tokens 512) upstream

/-- One entry of the upstream tags reply: `m.get("name")` may be absent. -/
structure TagModel where
  name : Option String
deriving DecidableEq

/-- The decoded `/api/tags` reply: `data.get("models", [])` may be absent. -/
structure TagsData where
  models : Option (List TagModel)
deriving DecidableEq

/-- Outcome of the `/api/tags` GET issued by the `models` handler. -/
inductive TagsOutcome where
  | success : TagsData → TagsOutcome
  | reqError : String → TagsOutcome
deriving DecidableEq

/-- Result of the `/models` handler: the names/raw body, or a raised
`HTTPException`. -/
inductive ModelsResult where
  | ok : List String → TagsData → ModelsResult
  | httpError : Nat → String → ModelsResult
deriving DecidableEq

/-- The list comprehension of the `models` handler:
`[m.get("name") for m in data.get("models", []) if m.get("name")]`
keeps each model's name exactly when it is present and truthy. -/
def tagNames (data : TagsData) : List String :=
  (data.models.getD []).filterMap
    (fun m =>
      match m.name with
      | none => none
      | some s => if s = "" then none else some s)

/-- Translation of the GET `/models` handler: on success return
`{names, raw}`, on `requests.RequestException` raise 502. -/
def models (u : TagsOutcome) : ModelsResult :=
  match u with
  | TagsOutcome.success data => ModelsResult.ok (tagNames data) data
  | TagsOutcome.reqError msg =>
      ModelsResult.httpError 502 ("Ollama error: " ++ msg)

/-- The parseable-JSON fragment carried by a line, if any: used only to
state properties of the two loops. -/
def lineFragment : Line → Option String
  | Line.empty => none
  | Line.nonJson _ => none
  | Line.obj r => r

lemma emitFragments_eq_filterMap (lines : List Line) :
    emitFragments lines = lines.filterMap lineFragment := by
  induction lines with
  | nil => rfl
  | cons l rest ih =>
    cases l with
    | empty => simpa [emitFragments, lineFragment] using ih
    | nonJson s => simpa [emitFragments, lineFragment] using ih
    | obj r =>
      cases r with
      | none => simpa [emitFragments, lineFragment] using ih
      | some s => simpa [emitFragments, lineFragment] using ih

lemma collectChunks_go (lines : List Line) (acc : List String) :
    lines.foldl
      (fun chunks l =>
        match l with
        | Line.empty => chunks
        | Line.nonJson _ => chunks
        | Line.obj none => chunks
        | Line.obj (some s) => chunks ++ [s]) acc
      = acc ++ emitFragments lines := by
  induction lines generalizing acc with
  | nil => simp [emitFragments]
  | cons l rest ih =>
    cases l with
    | empty => simp [emitFragments, ih]
    | nonJson s => simp [emitFragments, ih]
    | obj r =>
      cases r with
      | none => simp [emitFragments, ih]
      | some s => simp [emitFragments, ih]

lemma collectChunks_eq_emitFragments (lines : List Line) :
    collectChunks lines = emitFragments lines := by
  simpa using collectChunks_go lines []

lemma emitFragments_append (a b : List Line) :
    emitFragments (a ++ b) = emitFragments a ++ emitFragments b := by
  simp [emitFragments_eq_filterMap]

lemma orElseStr_parse (m : Option (Option String)) (d : String) :
    orElseStr (m.getD (some d)) d
      = match m with
        | none => d
        | some none => d
        | some (some s) => if s = "" then d else s := by
  rcases m with _ | m
  · simp [orElseStr]
  · rcases m with _ | s <;> simp [orElseStr]

lemma orElseRat_parse (m : Option (Option Rat)) (d : Rat) :
    orElseRat (m.getD (some d)) d
      = match m with
        | none => d
        | some none => d
        | some (some x) => if x = 0 then d else x := by
  rcases m with _ | m
  · simp [orElseRat]
  · rcases m with _ | x <;> simp [orElseRat]

lemma orElseInt_parse (m : Option (Option Int)) (d : Int) :
    orElseInt (m.getD (some d)) d
      = match m with
        | none => d
        | some none => d
        | some (some x) => if x = 0 then d else x := by
  rcases m with _ | m
  · simp [orElseInt]
  · rcases m with _ | x <;> simp [orElseInt]

/-- Claim C1: for every finite upstream line stream that closes normally,
`/chat` returns a response field equal to the in-order concatenation of
the "response" fragments of its parseable JSON lines; in particular the
upstream stream with lines carrying "Hel" and "lo" yields aggregated
"Hello" from `/chat`, and `/stream` emits exactly "Hel" then "lo". -/
theorem chat_response_is_fragment_concat :
    (∀ (prompt model : String) (t tp : Rat) (k : Int) (lines : List Line),
      chat_full prompt model t tp k (fun _ => UpstreamResult.success lines)
        = ChatResult.ok
            { model := model, prompt := prompt, temperature := t,
              top_p := tp, max_tokens := k,
              response := String.join (lines.filterMap lineFragment) })
    ∧ chat_full "hi" "phi3:mini" (7 / 10) (9 / 10) 512
        (fun _ => UpstreamResult.success
          [Line.obj (some "Hel"), Line.obj (some "lo")])
        = ChatResult.ok
            { model := "phi3:mini", prompt := "hi", temperature := 7 / 10,
              top_p := 9 / 10, max_tokens := 512, response := "Hello" }
    ∧ (stream_get "hi" none none none none
        (fun _ => UpstreamResult.success
          [Line.obj (some "Hel"), Line.obj (some "lo")])).body
        = ["Hel", "lo"] := by
  refine ⟨?_, rfl, rfl⟩
  intro prompt model t tp k lines
  simp [chat_full, collectChunks_eq_emitFragments, emitFragments_eq_filterMap]

/-- Claim C2: whenever `/chat` returns a success body, its response string
equals the in-order concatenation of the fragments `/stream` emits for
the same prompt, model and parameters against the same deterministic
upstream. -/
theorem chat_full_refines_chat_stream
    (upstream : Payload → UpstreamResult) (prompt model : String)
    (t tp : Rat) (k : Int) (r : AggregatedResult)
    (h : chat_full prompt model t tp k upstream = ChatResult.ok r) :
    r.response = String.join (chat_stream prompt model t tp k upstream) := by
  unfold chat_full at h
  unfold chat_stream
  cases hu : upstream (make_payload prompt model t tp k) with
  | success lines =>
      rw [hu] at h
      cases h
      simp [collectChunks_eq_emitFragments]
  | timeout c =>
      rw [hu] at h
      cases h
  | reqError c m =>
      rw [hu] at h
      cases h

/-- Witness for claim C2 at the concrete stream carrying "Hel" and "lo". -/
theorem chat_full_refines_chat_stream_witness :
    (AggregatedResult.mk "phi3:mini" "hi" (7 / 10) (9 / 10) 512
        "Hello").response
      = String.join (chat_stream "hi" "phi3:mini" (7 / 10) (9 / 10) 512
          (fun _ => UpstreamResult.success
            [Line.obj (some "Hel"), Line.obj (some "lo")])) :=
  chat_full_refines_chat_stream _ _ _ _ _ _ _ rfl

/-- Claim C3: empty upstream lines, lines that fail to parse as JSON, and
parsed lines lacking a "response" field contribute nothing to the
aggregated output or the forwarded fragments at any position in the
stream, and streams containing them never make the request fail. -/
theorem ignored_lines_contribute_nothing :
    ∀ (prompt model : String) (t tp : Rat) (k : Int)
      (pre post : List Line) (s : String),
      (chat_full prompt model t tp k
          (fun _ => UpstreamResult.success (pre ++ Line.empty :: post))
        = chat_full prompt model t tp k
            (fun _ => UpstreamResult.success (pre ++ post)))
      ∧ (chat_full prompt model t tp k
          (fun _ => UpstreamResult.success (pre ++ Line.nonJson s :: post))
        = chat_full prompt model t tp k
            (fun _ => UpstreamResult.success (pre ++ post)))
      ∧ (chat_full prompt model t tp k
          (fun _ => UpstreamResult.success (pre ++ Line.obj none :: post))
        = chat_full prompt model t tp k
            (fun _ => UpstreamResult.success (pre ++ post)))
      ∧ (chat_stream prompt model t tp k
          (fun _ => UpstreamResult.success (pre ++ Line.empty :: post))
        = chat_stream prompt model t tp k
            (fun _ => UpstreamResult.success (pre ++ post)))
      ∧ (chat_stream prompt model t tp k
          (fun _ => UpstreamResult.success (pre ++ Line.nonJson s :: post))
        = chat_stream prompt model t tp k
            (fun _ => UpstreamResult.success (pre ++ post)))
      ∧ (chat_stream prompt model t tp k
          (fun _ => UpstreamResult.success (pre ++ Line.obj none :: post))
        = chat_stream prompt model t tp k
            (fun _ => UpstreamResult.success (pre ++ post)))
      ∧ (∀ lines,
          (chat_full prompt model t tp k
            (fun _ => UpstreamResult.success lines)).isOk = true)
      ∧ (∀ lines,
          (stream_get prompt (some model) (some t) (some tp) (some k)
            (fun _ => UpstreamResult.success lines)).status = 200) := by
  intro prompt model t tp k pre post s
  refine ⟨?_, ?_, ?_, ?_, ?_, ?_, fun lines => rfl, fun lines => rfl⟩ <;>
    simp [chat_full, chat_stream, collectChunks_eq_emitFragments,
      emitFragments_eq_filterMap, lineFragment]

/-- Claim C4: `/chat` maps an upstream timeout to HTTP 504 and any other
upstream transport or HTTP failure (non-2xx included, which
`raise_for_status` turns into a `RequestException`) to HTTP 502; the
caller receives the error, never a body. -/
theorem chat_error_status_mapping :
    ∀ (prompt model : String) (t tp : Rat) (k : Int)
      (consumed : List Line) (msg : String),
      chat_full prompt model t tp k
          (fun _ => UpstreamResult.timeout consumed)
        = ChatResult.httpError 504 "Timeout talking to Ollama"
      ∧ chat_full prompt model t tp k
          (fun _ => UpstreamResult.reqError consumed msg)
        = ChatResult.httpError 502 ("Ollama error: " ++ msg) := by
  intro prompt model t tp k consumed msg
  exact ⟨rfl, rfl⟩

/-- Claim C5: on a timeout during `/stream` the relay appends a single
final fragment with the timeout notice and the stream ends as a normal
200 response; any other upstream error likewise yields exactly one
descriptive final fragment; an upstream that times out before any data
produces exactly one fragment. -/
theorem stream_error_in_band :
    ∀ (prompt : String) (model : Option String) (t tp : Option Rat)
      (k : Option Int) (consumed : List Line) (msg : String),
      stream_get prompt model t tp k
          (fun _ => UpstreamResult.timeout consumed)
        = { status := 200, media_type := "text/plain",
            body := emitFragments consumed
              ++ ["[Timeout talking to Ollama]"] }
      ∧ stream_get prompt model t tp k
          (fun _ => UpstreamResult.reqError consumed msg)
        = { status := 200, media_type := "text/plain",
            body := emitFragments consumed
              ++ ["[Ollama error: " ++ msg ++ "]"] }
      ∧ (stream_get prompt model t tp k
          (fun _ => UpstreamResult.timeout [])).body
        = ["[Timeout talking to Ollama]"] := by
  intro prompt model t tp k consumed msg
  exact ⟨rfl, rfl, rfl⟩

/-- Claim C6 counterexample: on GET `/chat` an explicitly supplied falsy
parameter is NOT replaced by its default — `temperature=0` yields a
result echoing temperature 0, and 0 is not the default 0.7 — refuting
the claim that for GET and POST alike a parameter falls back to its
default exactly when absent or falsy. -/
theorem get_falsy_param_not_defaulted :
    chat_get "p" none (some 0) none none
        (fun _ => UpstreamResult.success [])
      = ChatResult.ok
          { model := "phi3:mini", prompt := "p", temperature := 0,
            top_p := 9 / 10, max_tokens := 512, response := "" }
    ∧ (0 : Rat) ≠ 7 / 10 := by
  exact ⟨rfl, by norm_num⟩

/-- Claim C6 (amended): for POST `/chat` each generation parameter
resolves to its default (model "phi3:mini", temperature 0.7, top_p 0.9,
max_tokens 512) exactly when the body field is absent, null, or falsy,
and a truthy supplied value overrides the default exactly once; for GET
`/chat` a parameter falls back to its default exactly when the query
parameter is absent, and a supplied value is used as-is. -/
theorem param_default_resolution :
    (∀ (b : ChatPostBody) (upstream : Payload → UpstreamResult),
      chat_post (ChatIn.parse b) upstream
        = chat_full b.prompt
            (match b.model with
              | none => "phi3:mini"
              | some none => "phi3:mini"
              | some (some s) => if s = "" then "phi3:mini" else s)
            (match b.temperature with
              | none => 7 / 10
              | some none => 7 / 10
              | some (some x) => if x = 0 then 7 / 10 else x)
            (match b.top_p with
              | none => 9 / 10
              | some none => 9 / 10
              | some (some x) => if x = 0 then 9 / 10 else x)
            (match b.max_tokens with
              | none => 512
              | some none => 512
              | some (some x) => if x = 0 then 512 else x)
            upstream)
    ∧ (∀ (prompt : String) (upstream : Payload → UpstreamResult),
        chat_get prompt none none none none upstream
          = chat_full prompt "phi3:mini" (7 / 10) (9 / 10) 512 upstream)
    ∧ (∀ (prompt model : String) (t tp : Rat) (k : Int)
          (upstream : Payload → UpstreamResult),
        chat_get prompt (some model) (some t) (some tp) (some k) upstream
          = chat_full prompt model t tp k upstream) := by
  refine ⟨?_, fun prompt upstream => rfl,
    fun prompt model t tp k upstream => rfl⟩
  intro b upstream
  show chat_full _ _ _ _ _ upstream = chat_full _ _ _ _ _ upstream
  rw [ChatIn.parse]
  rw [show (ChatIn.mk b.prompt (b.model.getD (some "phi3:mini"))
      (b.temperature.getD (some (7 / 10))) (b.top_p.getD (some (9 / 10)))
      (b.max_tokens.getD (some 512))).prompt = b.prompt from rfl]
  rw [show (ChatIn.mk b.prompt (b.model.getD (some "phi3:mini"))
      (b.temperature.getD (some (7 / 10))) (b.top_p.getD (some (9 / 10)))
      (b.max_tokens.getD (some 512))).model
      = b.model.getD (some "phi3:mini") from rfl]
  rw [orElseStr_parse, orElseRat_parse, orElseRat_parse, orElseInt_parse]

/-- Claim C7: the payload `_make_payload` builds for the upstream generate
endpoint has exactly the shape model/prompt/options with options holding
temperature, top_p and num_predict, where num_predict equals the
caller's max_tokens value. -/
theorem make_payload_shape :
    ∀ (prompt model : String) (t tp : Rat) (k : Int),
      make_payload prompt model t tp k
        = { model := model, prompt := prompt,
            options := { temperature := t, top_p := tp, num_predict := k } }
      ∧ (make_payload prompt model t tp k).options.num_predict = k := by
  intro prompt model t tp k
  exact ⟨rfl, rfl⟩

/-- Claim C8: on upstream success `/models` returns the names list with
one entry per model whose name field is present and non-empty, together
with the raw upstream object; zero upstream models (or an absent models
key) yields an empty names list without error. -/
theorem models_names_and_raw :
    (∀ data : TagsData,
      models (TagsOutcome.success data)
        = ModelsResult.ok
            ((data.models.getD []).filterMap
              (fun m => m.name.bind
                (fun s => if s = "" then none else some s)))
            data)
    ∧ models (TagsOutcome.success { models := some [] })
        = ModelsResult.ok [] { models := some [] }
    ∧ models (TagsOutcome.success { models := none })
        = ModelsResult.ok [] { models := none } := by
  refine ⟨?_, rfl, rfl⟩
  intro data
  have hf : (fun (m : TagModel) =>
        match m.name with
        | none => none
        | some s => if s = "" then none else some s)
      = (fun (m : TagModel) =>
          m.name.bind (fun s => if s = "" then none else some s)) := by
    funext m
    rcases m with ⟨name⟩
    rcases name with _ | s <;> rfl
  simp [models, tagNames, hf]

/-- Claim C9: if the upstream stream fails after some fragments were
already parsed, `/chat` discards the partially accumulated text and the
caller receives only the 504 or 502 error — never a partial body. -/
theorem chat_error_discards_buffered_fragments :
    ∀ (prompt model : String) (t tp : Rat) (k : Int)
      (consumed : List Line) (msg : String),
      (∀ r, chat_full prompt model t tp k
          (fun _ => UpstreamResult.timeout consumed) ≠ ChatResult.ok r)
      ∧ (∀ r, chat_full prompt model t tp k
          (fun _ => UpstreamResult.reqError consumed msg) ≠ ChatResult.ok r)
      ∧ chat_full prompt model t tp k
          (fun _ => UpstreamResult.timeout
            [Line.obj (some "abc"), Line.obj (some "def")])
          = ChatResult.httpError 504 "Timeout talking to Ollama"
      ∧ chat_full prompt model t tp k
          (fun _ => UpstreamResult.reqError [Line.obj (some "abc")] msg)
          = ChatResult.httpError 502 ("Ollama error: " ++ msg) := by
  intro prompt model t tp k consumed msg
  refine ⟨fun r h => ?_, fun r h => ?_, rfl, rfl⟩
  · simp [chat_full] at h
  · simp [chat_full] at h

/-- Claim C10: GET `/chat` and GET `/stream` forward an explicitly
supplied parameter into the upstream payload exactly as given, even when
falsy (temperature 0, empty model, max_tokens 0), while POST `/chat`
substitutes defaults for present-but-falsy values. -/
theorem get_params_forwarded_as_given :
    ∀ (prompt model : String) (t tp : Rat) (k : Int)
      (upstream : Payload → UpstreamResult),
      chat_get prompt (some model) (some t) (some tp) (some k) upstream
        = chat_full prompt model t tp k upstream
      ∧ stream_get prompt (some model) (some t) (some tp) (some k) upstream
        = { status := 200, media_type := "text/plain",
            body := chat_stream prompt model t tp k upstream }
      ∧ chat_get prompt (some model) (some 0) (some tp) (some 0) upstream
        = chat_full prompt model 0 tp 0 upstream
      ∧ stream_get prompt (some "") (some 0) (some 0) (some 0) upstream
        = { status := 200, media_type := "text/plain",
            body := chat_stream prompt "" 0 0 0 upstream }
      ∧ chat_post
          { prompt := prompt, model := some "", temperature := some 0,
            top_p := some 0, max_tokens := some 0 } upstream
        = chat_full prompt "phi3:mini" (7 / 10) (9 / 10) 512 upstream := by
  intro prompt model t tp k upstream
  refine ⟨rfl, rfl, rfl, rfl, ?_⟩
  simp [chat_post, orElseStr, orElseRat, orElseInt]

end OllamaGateway
